import Mathlib

/-!
Verification of the frame-synchronized physics-to-render pipeline of the
bando-io repository: the `PhysicsEngine` class (Physics Stepper, from
`src/bando-game/src/game/core/PhysicsEngine.ts`) and the `GameScene` class
(Body Registry / Scene Facade, from the unnamed `GameScene.ts` source file).

The embedding is shallow: the mutable object graph (THREE meshes, the Rapier
world, the registry `Map`) becomes one explicit `GameState` record, object
references become indices (handles) into lists, and every method becomes a
pure state-transforming function translated line by line from the source.
Numbers are rationals. The external physics backend (Rapier) is not part of
the repository; its `World.step` and the rigid-body force/impulse mutators
are modelled from the specification where noted.
-/

/-- A 3-component vector of rationals (positions, forces, gravity). -/
structure Vec3 where
  x : ℚ
  y : ℚ
  z : ℚ
deriving DecidableEq, Repr

/-- Componentwise vector addition. -/
def Vec3.add (a b : Vec3) : Vec3 :=
  ⟨a.x + b.x, a.y + b.y, a.z + b.z⟩

/-- Scalar multiplication of a vector. -/
def Vec3.smul (c : ℚ) (a : Vec3) : Vec3 :=
  ⟨c * a.x, c * a.y, c * a.z⟩

/-- A quaternion (orientation), stored as x, y, z, w like THREE and Rapier. -/
structure Quat where
  x : ℚ
  y : ℚ
  z : ℚ
  w : ℚ
deriving DecidableEq, Repr

/-- Kinematic classification of a rigid body: `RigidBodyDesc.dynamic()` or
`RigidBodyDesc.fixed()` in the source. -/
inductive BodyType where
  | Dynamic
  | Fixed
deriving DecidableEq, Repr

/-- A simulated rigid body owned by the World. Translation, rotation and
linear velocity are the fields the repository reads (`rigidBody.translation()`,
`rigidBody.rotation()`); `forceAcc` is the persistent force accumulator fed by
`addForce`, and `mass` the collider-derived mass (unit-density cuboid), both
needed to model the backend mutators the repository calls. -/
structure RigidBody where
  btype : BodyType
  translation : Vec3
  rotation : Quat
  linvel : Vec3
  forceAcc : Vec3
  mass : ℚ
deriving DecidableEq, Repr

/-- A collider: an axis-aligned cuboid given by half-extents, its own
translation (the backend's `ColliderDesc.cuboid` leaves it at the origin
unless a translation is set, which the repository never does), and an
optional parent rigid body (an index into the World's body list). -/
structure Collider where
  halfExtents : Vec3
  translation : Vec3
  parent : Option Nat
deriving DecidableEq, Repr

/-- The physics World: gravity plus the rigid bodies and colliders it owns.
Body and collider handles are indices into these lists, in creation order. -/
structure World where
  gravity : Vec3
  bodies : List RigidBody
  colliders : List Collider
deriving DecidableEq, Repr

/-- Modelled from the spec: the backend advances the World by "a constant
internal step" (§4.1); Rapier's default fixed timestep is 1/60 s. -/
def dt : ℚ := 1 / 60

/-- Modelled from the spec: one tick of integration for a single body.
"`createBox` followed by one `step()` produces a TransformSink whose position
differs from the initial position by an amount consistent with one tick of
gravity integration (for a Dynamic body) or is unchanged (for a Fixed body)"
(§8): a Dynamic body integrates gravity plus its accumulated external force
semi-implicitly (velocity first, then position); a Fixed body never moves.
Contact response is outside the scenarios the spec describes and is not
modelled. -/
def stepBody (g : Vec3) (rb : RigidBody) : RigidBody :=
  match rb.btype with
  | BodyType.Fixed => rb
  | BodyType.Dynamic =>
    let accel := Vec3.add g (Vec3.smul (1 / rb.mass) rb.forceAcc)
    let v := Vec3.add rb.linvel (Vec3.smul dt accel)
    { rb with linvel := v, translation := Vec3.add rb.translation (Vec3.smul dt v) }

/-- Modelled from the spec: `World.step` of the external backend "advances the
World by one simulation tick (fixed internal timestep)" (§4.1), integrating
every body once. -/
def World.step (w : World) : World :=
  { w with bodies := w.bodies.map (stepBody w.gravity) }

/-- Modelled from the spec: `addForce` "applies a continuous force ... at
center of mass" (§4.2) — it accumulates into the body's force accumulator;
forces only affect Dynamic bodies. -/
def RigidBody.addForce (rb : RigidBody) (f : Vec3) : RigidBody :=
  match rb.btype with
  | BodyType.Dynamic => { rb with forceAcc := Vec3.add rb.forceAcc f }
  | BodyType.Fixed => rb

/-- Modelled from the spec: `addForceAtPoint` applies the force "at `point`"
(§4.2). The spec describes no angular response, so only the linear
contribution — identical to `addForce` — is modelled. -/
def RigidBody.addForceAtPoint (rb : RigidBody) (f : Vec3) (_p : Vec3) : RigidBody :=
  RigidBody.addForce rb f

/-- Modelled from the spec: `applyImpulse` is "an instantaneous
velocity-changing impulse" (§4.2): a Dynamic body's linear velocity changes
by the impulse divided by its mass; a Fixed body is unaffected. -/
def RigidBody.applyImpulse (rb : RigidBody) (i : Vec3) : RigidBody :=
  match rb.btype with
  | BodyType.Dynamic => { rb with linvel := Vec3.add rb.linvel (Vec3.smul (1 / rb.mass) i) }
  | BodyType.Fixed => rb

/-- Modelled from the spec: `applyImpulseAtPoint` with the same linear
semantics as `applyImpulse` (§4.2); the spec describes no angular response. -/
def RigidBody.applyImpulseAtPoint (rb : RigidBody) (i : Vec3) (_p : Vec3) : RigidBody :=
  RigidBody.applyImpulse rb i

/-- A THREE mesh as the repository uses it: box geometry dimensions, material
color, the transform sink (position + quaternion), and the two dispose flags
set by `geometry.dispose()` / `material.dispose()`. -/
structure Mesh where
  geometry : Vec3
  color : Nat
  position : Vec3
  quaternion : Quat
  geometryDisposed : Bool
  materialDisposed : Bool
deriving DecidableEq, Repr

/-- `new THREE.Mesh(new BoxGeometry(w, h, d), new MeshStandardMaterial({color}))`:
a fresh mesh sits at the origin with identity orientation. -/
def Mesh.new (size : Vec3) (color : Nat) : Mesh :=
  { geometry := size, color := color, position := ⟨0, 0, 0⟩,
    quaternion := ⟨0, 0, 0, 1⟩, geometryDisposed := false, materialDisposed := false }

/-- The source's `PhysicsObject`: references (handles) to the rigid body and
collider inside the World and to the mesh whose transform its `update()`
closure writes. -/
structure PhysicsObj where
  body : Nat
  collider : Nat
  mesh : Nat
deriving DecidableEq, Repr

/-- One entry of `GameScene.objects`: `{ mesh, physics?: PhysicsObject }`. -/
structure SceneEntry where
  mesh : Nat
  physics : Option PhysicsObj
deriving DecidableEq, Repr

/-- The whole mutable object graph the two classes touch: the mesh store
(handle = index), the THREE scene's children, the `PhysicsEngine` fields
(`world`, `rapierModule` as a loaded flag, `initialized`, `physicsObjects`)
and the `GameScene.objects` map as an insertion-ordered association list. -/
structure GameState where
  meshes : List Mesh
  sceneChildren : List Nat
  world : Option World
  rapierLoaded : Bool
  initialized : Bool
  physicsObjects : List PhysicsObj
  objects : List (String × SceneEntry)
deriving DecidableEq, Repr

/-- The state at construction time: no world, nothing registered. -/
def GameState.new : GameState :=
  { meshes := [], sceneChildren := [], world := none, rapierLoaded := false,
    initialized := false, physicsObjects := [], objects := [] }

/-- Replace the element at an index, leaving the list unchanged when the
index is out of range (models mutating an object through a live reference). -/
def modifyAt {α : Type} (f : α → α) : Nat → List α → List α
  | _, [] => []
  | 0, a :: rest => f a :: rest
  | n + 1, a :: rest => a :: modifyAt f n rest

/-- JS `Map.get`, on the insertion-ordered association list. -/
def mapGet {α : Type} : List (String × α) → String → Option α
  | [], _ => none
  | (k, v) :: rest, key => if k = key then some v else mapGet rest key

/-- JS `Map.set`: update in place when the key exists (keeping its position),
otherwise append. -/
def mapSet {α : Type} : List (String × α) → String → α → List (String × α)
  | [], key, v => [(key, v)]
  | (k, v0) :: rest, key, v =>
    if k = key then (key, v) :: rest else (k, v0) :: mapSet rest key v

/-- `PhysicsEngine.init()`: loads the backend module and creates a World with
gravity `{x: 0, y: -9.81, z: 0}`, then marks the engine initialized. -/
def PhysicsEngine.init (s : GameState) : GameState :=
  { s with rapierLoaded := true,
           world := some { gravity := ⟨0, -981/100, 0⟩, bodies := [], colliders := [] },
           initialized := true }

/-- `PhysicsEngine.isInitialized()`. -/
def PhysicsEngine.isInitialized (s : GameState) : Bool :=
  s.initialized

/-- `PhysicsEngine.createGround(size)`: returns `null` when the world or the
backend module is missing; otherwise creates a free static cuboid collider of
half the given dimensions (no translation is ever set on the descriptor, so
the collider sits at the origin) and returns its handle. -/
def PhysicsEngine.createGround (s : GameState) (size : Vec3) :
    GameState × Option Nat :=
  match s.world, s.rapierLoaded with
  | some w, true =>
    let c : Collider := { halfExtents := ⟨size.x / 2, size.y / 2, size.z / 2⟩,
                          translation := ⟨0, 0, 0⟩, parent := none }
    ({ s with world := some { w with colliders := w.colliders ++ [c] } },
     some w.colliders.length)
  | _, _ => (s, none)

/-- `PhysicsEngine.createBox(size, position, mesh, isDynamic)`: returns `null`
when the world or the backend module is missing; otherwise creates a dynamic
or fixed rigid body at `position`, a cuboid collider of half the given
dimensions attached to it, and pushes a `PhysicsObject` referencing body,
collider and mesh onto `physicsObjects`. -/
def PhysicsEngine.createBox (s : GameState) (size pos : Vec3) (meshH : Nat)
    (isDynamic : Bool) : GameState × Option PhysicsObj :=
  match s.world, s.rapierLoaded with
  | some w, true =>
    let rb : RigidBody :=
      { btype := if isDynamic then BodyType.Dynamic else BodyType.Fixed,
        translation := pos, rotation := ⟨0, 0, 0, 1⟩,
        linvel := ⟨0, 0, 0⟩, forceAcc := ⟨0, 0, 0⟩,
        mass := size.x * size.y * size.z }
    let bodyIdx := w.bodies.length
    let c : Collider := { halfExtents := ⟨size.x / 2, size.y / 2, size.z / 2⟩,
                          translation := ⟨0, 0, 0⟩, parent := some bodyIdx }
    let colliderIdx := w.colliders.length
    let w2 : World := { w with bodies := w.bodies ++ [rb],
                               colliders := w.colliders ++ [c] }
    let po : PhysicsObj := { body := bodyIdx, collider := colliderIdx, mesh := meshH }
    ({ s with world := some w2, physicsObjects := s.physicsObjects ++ [po] }, some po)
  | _, _ => (s, none)

/-- The body of the `update()` closure: `mesh.position.set(...)` followed by
`mesh.quaternion.set(...)` with the rigid body's current transform. -/
def writeSink (rb : RigidBody) (m : Mesh) : Mesh :=
  { m with position := rb.translation, quaternion := rb.rotation }

/-- The `update()` closure of a `PhysicsObject`: copies the rigid body's
current translation and rotation into the mesh. -/
def updateObj (s : GameState) (po : PhysicsObj) : GameState :=
  match s.world with
  | none => s
  | some w =>
    match w.bodies.get? po.body with
    | none => s
    | some rb =>
      { s with meshes := modifyAt (writeSink rb) po.mesh s.meshes }

/-- `PhysicsEngine.step()`: a no-op when no world exists; otherwise advances
the World once, then invokes every registered object's `update()` in
registration order. -/
def PhysicsEngine.step (s : GameState) : GameState :=
  match s.world with
  | none => s
  | some w =>
    let s2 : GameState := { s with world := some (World.step w) }
    List.foldl updateObj s2 s.physicsObjects

/-- `PhysicsEngine.cleanup()`: clears the registered objects and drops the
World reference (the module flag and `initialized` are left as they are). -/
def PhysicsEngine.cleanup (s : GameState) : GameState :=
  { s with physicsObjects := [], world := none }

/-- Options of `GameScene.createPhysicsBox` (`mass` is accepted but never
read by the source). -/
structure BoxOptions where
  color : Option Nat
  isDynamic : Option Bool
  mass : Option ℚ
deriving DecidableEq, Repr

/-- `GameScene.createPhysicsBox(id, size, position, options)`: builds a mesh
(default color `0x00ff00`), adds it to the scene, requests a body from the
engine (dynamic by default), and stores `{ mesh, physics: physicsObject ||
undefined }` under `id`. -/
def GameScene.createPhysicsBox (s : GameState) (id : String) (size pos : Vec3)
    (opts : BoxOptions) : GameState :=
  let color := opts.color.getD 65280
  let isDynamic := opts.isDynamic.getD true
  let h := s.meshes.length
  let s1 : GameState := { s with meshes := s.meshes ++ [Mesh.new size color],
                                 sceneChildren := s.sceneChildren ++ [h] }
  let r := PhysicsEngine.createBox s1 size pos h isDynamic
  { r.1 with objects := mapSet r.1.objects id { mesh := h, physics := r.2 } }

/-- Options of `GameScene.createGround`. -/
structure GroundOptions where
  color : Option Nat
deriving DecidableEq, Repr

/-- `GameScene.createGround(id, size, position, options)`: builds a mesh
(default color `0x666666`), sets the mesh position to the given coordinates,
adds it to the scene, asks the engine for a ground collider (the requested
position is never passed on), and stores `{ mesh }` under `id`. -/
def GameScene.createGround (s : GameState) (id : String) (size pos : Vec3)
    (opts : GroundOptions) : GameState :=
  let color := opts.color.getD 6710886
  let h := s.meshes.length
  let mesh := { Mesh.new size color with position := pos }
  let s1 : GameState := { s with meshes := s.meshes ++ [mesh],
                                 sceneChildren := s.sceneChildren ++ [h] }
  let r := PhysicsEngine.createGround s1 size
  { r.1 with objects := mapSet r.1.objects id { mesh := h, physics := none } }

/-- `GameScene.getObject(id)`: pure lookup in the objects map. -/
def GameScene.getObject (s : GameState) (id : String) : Option SceneEntry :=
  mapGet s.objects id

/-- Mutate one rigid body of the world through its handle. -/
def modifyBody (s : GameState) (n : Nat) (f : RigidBody → RigidBody) : GameState :=
  match s.world with
  | none => s
  | some w => { s with world := some { w with bodies := modifyAt f n w.bodies } }

/-- `GameScene.applyForce(id, force, point?)`: returns early when the id is
unknown or its entry has no physics object; otherwise forwards to
`addForceAtPoint` or `addForce` on the entry's rigid body. -/
def GameScene.applyForce (s : GameState) (id : String) (force : Vec3)
    (point : Option Vec3) : GameState :=
  match mapGet s.objects id with
  | none => s
  | some obj =>
    match obj.physics with
    | none => s
    | some po =>
      match point with
      | some p => modifyBody s po.body (fun rb => RigidBody.addForceAtPoint rb force p)
      | none => modifyBody s po.body (fun rb => RigidBody.addForce rb force)

/-- `GameScene.applyImpulse(id, impulse, point?)`: returns early when the id
is unknown or its entry has no physics object; otherwise forwards to
`applyImpulseAtPoint` or `applyImpulse` on the entry's rigid body. -/
def GameScene.applyImpulse (s : GameState) (id : String) (impulse : Vec3)
    (point : Option Vec3) : GameState :=
  match mapGet s.objects id with
  | none => s
  | some obj =>
    match obj.physics with
    | none => s
    | some po =>
      match point with
      | some p => modifyBody s po.body (fun rb => RigidBody.applyImpulseAtPoint rb impulse p)
      | none => modifyBody s po.body (fun rb => RigidBody.applyImpulse rb impulse)

/-- The per-entry body of `GameScene.cleanup`'s loop: `scene.remove(mesh)`
(removes the first occurrence of the child), then disposes the mesh's
geometry and material. -/
def disposeEntry (s : GameState) (e : SceneEntry) : GameState :=
  { s with sceneChildren := s.sceneChildren.erase e.mesh,
           meshes :=
             (modifyAt
               (fun m => { m with geometryDisposed := true, materialDisposed := true })
               e.mesh s.meshes) }

/-- `GameScene.cleanup()`: removes and disposes every tracked mesh, then
clears the objects map. The engine's `physicsObjects` and `world` are not
touched. -/
def GameScene.cleanup (s : GameState) : GameState :=
  let s1 := s.objects.foldl (fun acc p => disposeEntry acc p.2) s
  { s1 with objects := [] }

/-- A concrete engine state right after `init()`: used by the witnesses. -/
def readyState : GameState := PhysicsEngine.init GameState.new

/-- The world inside `readyState`. -/
def readyWorld : World :=
  { gravity := ⟨0, -981/100, 0⟩, bodies := [], colliders := [] }

/-- A concrete state with one dynamic unit box registered as "cube1". -/
def boxState : GameState :=
  GameScene.createPhysicsBox readyState "cube1" ⟨1, 1, 1⟩ ⟨0, 5, 0⟩ ⟨none, none, none⟩

/-- The world inside `boxState`. -/
def boxWorld : World :=
  { gravity := ⟨0, -981/100, 0⟩,
    bodies := [{ btype := BodyType.Dynamic, translation := ⟨0, 5, 0⟩,
                 rotation := ⟨0, 0, 0, 1⟩, linvel := ⟨0, 0, 0⟩,
                 forceAcc := ⟨0, 0, 0⟩, mass := 1 * 1 * 1 }],
    colliders := [{ halfExtents := ⟨1/2, 1/2, 1/2⟩, translation := ⟨0, 0, 0⟩,
                    parent := some 0 }] }

/-- A concrete state with a ground entry "ground" (an entry without physics). -/
def groundState : GameState :=
  GameScene.createGround readyState "ground" ⟨20, 1, 20⟩ ⟨0, -1, 0⟩ ⟨none⟩

theorem modifyAt_length {α : Type} (f : α → α) :
    ∀ (n : Nat) (l : List α), (modifyAt f n l).length = l.length
  | n, [] => by simp [modifyAt]
  | 0, _ :: _ => rfl
  | n + 1, _ :: rest => congrArg Nat.succ (modifyAt_length f n rest)

theorem modifyAt_get_self {α : Type} (f : α → α) :
    ∀ (n : Nat) (l : List α), (modifyAt f n l).get? n = (l.get? n).map f
  | n, [] => by simp [modifyAt]
  | 0, _ :: _ => rfl
  | n + 1, _ :: rest => modifyAt_get_self f n rest

theorem mapGet_mapSet_self {α : Type} :
    ∀ (m : List (String × α)) (k : String) (v : α),
      mapGet (mapSet m k v) k = some v
  | [], k, v => by simp [mapSet, mapGet]
  | (k0, v0) :: rest, k, v => by
    by_cases h : k0 = k
    · simp [mapSet, h, mapGet]
    · simp only [mapSet, h, if_false, mapGet]
      exact mapGet_mapSet_self rest k v

theorem mapGet_eq_none {α : Type} :
    ∀ (m : List (String × α)) (k : String), k ∉ m.map Prod.fst → mapGet m k = none
  | [], _, _ => rfl
  | (k0, v0) :: rest, k, h => by
    have h1 : ¬ k0 = k := fun e => h (by simp [e])
    simp only [mapGet, h1, if_false]
    exact mapGet_eq_none rest k (fun hm => h (by simp [hm]))

theorem updateObj_world (s : GameState) (po : PhysicsObj) :
    (updateObj s po).world = s.world := by
  unfold updateObj
  split
  · rfl
  · split
    · rfl
    · rfl

theorem updateObj_meshes_length (s : GameState) (po : PhysicsObj) :
    (updateObj s po).meshes.length = s.meshes.length := by
  unfold updateObj
  split
  · rfl
  · split
    · rfl
    · exact modifyAt_length _ po.mesh s.meshes

theorem updateObj_physicsObjects (s : GameState) (po : PhysicsObj) :
    (updateObj s po).physicsObjects = s.physicsObjects := by
  unfold updateObj
  split
  · rfl
  · split
    · rfl
    · rfl

theorem foldl_updateObj_world :
    ∀ (l : List PhysicsObj) (s : GameState),
      (List.foldl updateObj s l).world = s.world
  | [], _ => rfl
  | po :: rest, s => by
    rw [List.foldl_cons, foldl_updateObj_world rest, updateObj_world]

theorem foldl_updateObj_meshes_length :
    ∀ (l : List PhysicsObj) (s : GameState),
      (List.foldl updateObj s l).meshes.length = s.meshes.length
  | [], _ => rfl
  | po :: rest, s => by
    rw [List.foldl_cons, foldl_updateObj_meshes_length rest, updateObj_meshes_length]

theorem foldl_dispose_objects :
    ∀ (l : List (String × SceneEntry)) (s : GameState),
      (List.foldl (fun acc p => disposeEntry acc p.2) s l).objects = s.objects
  | [], _ => rfl
  | p :: rest, s => by
    rw [List.foldl_cons, foldl_dispose_objects rest]
    rfl

theorem foldl_dispose_physicsObjects :
    ∀ (l : List (String × SceneEntry)) (s : GameState),
      (List.foldl (fun acc p => disposeEntry acc p.2) s l).physicsObjects =
        s.physicsObjects
  | [], _ => rfl
  | p :: rest, s => by
    rw [List.foldl_cons, foldl_dispose_physicsObjects rest]
    rfl

theorem foldl_dispose_world :
    ∀ (l : List (String × SceneEntry)) (s : GameState),
      (List.foldl (fun acc p => disposeEntry acc p.2) s l).world = s.world
  | [], _ => rfl
  | p :: rest, s => by
    rw [List.foldl_cons, foldl_dispose_world rest]
    rfl

theorem foldl_dispose_meshes_length :
    ∀ (l : List (String × SceneEntry)) (s : GameState),
      (List.foldl (fun acc p => disposeEntry acc p.2) s l).meshes.length =
        s.meshes.length
  | [], _ => rfl
  | p :: rest, s => by
    rw [List.foldl_cons, foldl_dispose_meshes_length rest]
    exact modifyAt_length _ _ _

/-- C7: if `step()` is called before the Stepper has been initialized (no
World exists), it returns without error and without any effect: no world
advance and no `update()` call occurs — the state is completely unchanged. -/
theorem step_before_init_noop (s : GameState) (h : s.world = none) :
    PhysicsEngine.step s = s := by
  unfold PhysicsEngine.step
  split
  · rfl
  · rename_i w heq
    rw [h] at heq
    exact Option.noConfusion heq

/-- C7 witness: concretely, stepping the freshly constructed state is a no-op. -/
theorem step_before_init_noop_witness :
    GameState.new.world = none ∧ PhysicsEngine.step GameState.new = GameState.new :=
  ⟨rfl, step_before_init_noop GameState.new rfl⟩

/-- C5: `getObject` on an identifier never inserted into the registry returns
absent (`none`); being a pure function of the state, it neither raises nor
changes the registry. -/
theorem getObject_unknown_absent (s : GameState) (id : String)
    (h : id ∉ s.objects.map Prod.fst) :
    GameScene.getObject s id = none :=
  mapGet_eq_none s.objects id h

/-- C5 witness: looking up "ghost" in a populated concrete state. -/
theorem getObject_unknown_absent_witness :
    "ghost" ∉ boxState.objects.map Prod.fst ∧
    GameScene.getObject boxState "ghost" = none :=
  ⟨by decide, getObject_unknown_absent boxState "ghost" (by decide)⟩

/-- C3: `applyForce` and `applyImpulse` on an identifier that is absent from
the registry, or whose entry has no physics component, are no-ops: the whole
state — registry, every body, every mesh transform — is returned unchanged. -/
theorem applyForce_applyImpulse_unknown_noop (s : GameState) (id : String)
    (force impulse : Vec3) (p q : Option Vec3)
    (h : (GameScene.getObject s id).bind SceneEntry.physics = none) :
    GameScene.applyForce s id force p = s ∧ GameScene.applyImpulse s id impulse q = s := by
  unfold GameScene.getObject at h
  unfold GameScene.applyForce GameScene.applyImpulse
  cases hg : mapGet s.objects id with
  | none => simp [hg]
  | some obj =>
    rw [hg] at h
    simp only [Option.bind] at h
    simp [hg, h]

/-- C3 witness: the entry "ground" exists but has no physics component, so a
force and an impulse aimed at it leave the concrete state untouched. -/
theorem applyForce_applyImpulse_unknown_noop_witness :
    (GameScene.getObject groundState "ground").bind SceneEntry.physics = none ∧
    (GameScene.applyForce groundState "ground" ⟨1, 0, 0⟩ none = groundState ∧
     GameScene.applyImpulse groundState "ground" ⟨0, 5, 0⟩ (some ⟨0, 0, 0⟩) = groundState) :=
  ⟨by decide,
   applyForce_applyImpulse_unknown_noop groundState "ground" ⟨1, 0, 0⟩ ⟨0, 5, 0⟩
     none (some ⟨0, 0, 0⟩) (by decide)⟩

/-- C4: `createPhysicsBox` called while the Stepper is not initialized
creates no simulated rigid body: no World appears, and the engine's list of
registered bodies is unchanged (the request is dropped, not queued). -/
theorem createPhysicsBox_before_init_drops_body (s : GameState) (id : String)
    (size pos : Vec3) (opts : BoxOptions) (h : s.world = none) :
    (GameScene.createPhysicsBox s id size pos opts).world = none ∧
    (GameScene.createPhysicsBox s id size pos opts).physicsObjects =
      s.physicsObjects := by
  obtain ⟨ms, sc, wo, rl, ini, po, ob⟩ := s
  have h1 : wo = none := h
  subst h1
  cases rl <;> exact ⟨rfl, rfl⟩

/-- C4 witness: requesting "cube0" before `init()` leaves the World absent
and the registered-body list empty. -/
theorem createPhysicsBox_before_init_drops_body_witness :
    GameState.new.world = none ∧
    ((GameScene.createPhysicsBox GameState.new "cube0" ⟨1, 1, 1⟩ ⟨0, 5, 0⟩
        ⟨none, none, none⟩).world = none ∧
     (GameScene.createPhysicsBox GameState.new "cube0" ⟨1, 1, 1⟩ ⟨0, 5, 0⟩
        ⟨none, none, none⟩).physicsObjects = GameState.new.physicsObjects) :=
  ⟨rfl, createPhysicsBox_before_init_drops_body GameState.new "cube0" ⟨1, 1, 1⟩
     ⟨0, 5, 0⟩ ⟨none, none, none⟩ rfl⟩

/-- C6: `cleanup()` on any registry state leaves the registry empty, and a
second `cleanup()` is harmless: it observes the empty registry and returns
the very same state, so cleanup is idempotent. -/
theorem cleanup_idempotent (s : GameState) :
    (GameScene.cleanup s).objects = [] ∧
    GameScene.cleanup (GameScene.cleanup s) = GameScene.cleanup s :=
  ⟨rfl, rfl⟩

/-- C1: within one `step()` on an initialized engine, the World is advanced
exactly once, before any `update()` runs: the result is exactly the fold of
the `update()` closures, in registration order, over the state whose World
has been advanced once — and every intermediate state of that fold (after
any number `n` of updates) still holds the once-advanced World, so each
`update()` observes a fully-advanced world. -/
theorem step_advances_once_then_updates_in_order (s : GameState) (w : World)
    (n : Nat) (h : s.world = some w) :
    PhysicsEngine.step s =
      List.foldl updateObj { s with world := some (World.step w) } s.physicsObjects ∧
    (List.foldl updateObj { s with world := some (World.step w) }
        (s.physicsObjects.take n)).world = some (World.step w) := by
  constructor
  · unfold PhysicsEngine.step
    split
    · rename_i heq
      rw [h] at heq
      exact Option.noConfusion heq
    · rename_i w1 heq
      rw [h] at heq
      injection heq with heq1
      subst heq1
      rfl
  · rw [foldl_updateObj_world]

/-- C1 witness: the concrete one-box state, instantiated after one update. -/
theorem step_advances_once_then_updates_in_order_witness :
    boxState.world = some boxWorld ∧
    (PhysicsEngine.step boxState =
      List.foldl updateObj { boxState with world := some (World.step boxWorld) }
        boxState.physicsObjects ∧
     (List.foldl updateObj { boxState with world := some (World.step boxWorld) }
        (boxState.physicsObjects.take 1)).world = some (World.step boxWorld)) :=
  ⟨rfl, step_advances_once_then_updates_in_order boxState boxWorld 1 rfl⟩

/-- C2: on an initialized Scene, `createGround(id, size, position, ...)` sets
the new visual mesh's position to the given position, while the ground
collider appended to the World is a cuboid of half the given dimensions with
no translation applied — it stays at the world origin. -/
theorem createGround_mesh_positioned_collider_at_origin (s : GameState)
    (id : String) (size pos : Vec3) (opts : GroundOptions) (w : World)
    (h1 : s.world = some w) (h2 : s.rapierLoaded = true) :
    ((GameScene.createGround s id size pos opts).meshes.get? s.meshes.length).map
        Mesh.position = some pos ∧
    (GameScene.createGround s id size pos opts).world =
      some { w with colliders := w.colliders ++
        [{ halfExtents := ⟨size.x / 2, size.y / 2, size.z / 2⟩,
           translation := ⟨0, 0, 0⟩, parent := none }] } := by
  obtain ⟨ms, sc, wo, rl, ini, po, ob⟩ := s
  have h1a : wo = some w := h1
  have h2a : rl = true := h2
  subst h1a
  subst h2a
  constructor
  · show ((ms ++ [_]).get? ms.length).map Mesh.position = some pos
    rw [List.get?_concat_length]
    rfl
  · rfl

/-- C2 witness: a 20 by 1 by 20 ground requested at (0, -1, 0) on the ready
state — the mesh lands at the request, the collider at the origin. -/
theorem createGround_mesh_positioned_collider_at_origin_witness :
    readyState.world = some readyWorld ∧ readyState.rapierLoaded = true ∧
    (((GameScene.createGround readyState "ground" ⟨20, 1, 20⟩ ⟨0, -1, 0⟩
        ⟨none⟩).meshes.get? readyState.meshes.length).map Mesh.position =
          some ⟨0, -1, 0⟩ ∧
     (GameScene.createGround readyState "ground" ⟨20, 1, 20⟩ ⟨0, -1, 0⟩
        ⟨none⟩).world =
       some { readyWorld with colliders := readyWorld.colliders ++
         [{ halfExtents := ⟨20 / 2, 1 / 2, 20 / 2⟩,
            translation := ⟨0, 0, 0⟩, parent := none }] }) :=
  ⟨rfl, rfl,
   createGround_mesh_positioned_collider_at_origin readyState "ground"
     ⟨20, 1, 20⟩ ⟨0, -1, 0⟩ ⟨none⟩ readyWorld rfl rfl⟩

/-- C9: `createPhysicsBox` called while the Stepper is uninitialized still
constructs the mesh (the mesh store grows by one), still adds it to the
render scene, and still records an entry under `id` whose physics component
is absent — a later `getObject(id)` returns that physicsless entry, so the
NotReady path does not leave the state unchanged. -/
theorem createPhysicsBox_before_init_still_registers (s : GameState)
    (id : String) (size pos : Vec3) (opts : BoxOptions) (h : s.world = none) :
    (GameScene.createPhysicsBox s id size pos opts).meshes.length =
      s.meshes.length + 1 ∧
    (GameScene.createPhysicsBox s id size pos opts).sceneChildren =
      s.sceneChildren ++ [s.meshes.length] ∧
    GameScene.getObject (GameScene.createPhysicsBox s id size pos opts) id =
      some { mesh := s.meshes.length, physics := none } := by
  obtain ⟨ms, sc, wo, rl, ini, po, ob⟩ := s
  have h1 : wo = none := h
  subst h1
  cases rl <;>
    exact ⟨by simp [GameScene.createPhysicsBox, PhysicsEngine.createBox], rfl,
      mapGet_mapSet_self ob id { mesh := ms.length, physics := none }⟩

/-- C9 witness: requesting "cube0" before `init()` on the fresh state leaves
a mesh in the store and scene and a physicsless entry behind. -/
theorem createPhysicsBox_before_init_still_registers_witness :
    GameState.new.world = none ∧
    ((GameScene.createPhysicsBox GameState.new "cube0" ⟨1, 1, 1⟩ ⟨0, 5, 0⟩
        ⟨none, none, none⟩).meshes.length = GameState.new.meshes.length + 1 ∧
     (GameScene.createPhysicsBox GameState.new "cube0" ⟨1, 1, 1⟩ ⟨0, 5, 0⟩
        ⟨none, none, none⟩).sceneChildren =
       GameState.new.sceneChildren ++ [GameState.new.meshes.length] ∧
     GameScene.getObject (GameScene.createPhysicsBox GameState.new "cube0"
        ⟨1, 1, 1⟩ ⟨0, 5, 0⟩ ⟨none, none, none⟩) "cube0" =
       some { mesh := GameState.new.meshes.length, physics := none }) :=
  ⟨rfl, createPhysicsBox_before_init_still_registers GameState.new "cube0"
     ⟨1, 1, 1⟩ ⟨0, 5, 0⟩ ⟨none, none, none⟩ rfl⟩

/-- C10: `GameScene.cleanup()` clears only the Scene's registry: the
Stepper's internal body list and its World survive untouched (and the mesh
store keeps its length, so the removed meshes still exist as write targets),
and a subsequent `step()` still folds the `update()` closures of every
previously registered body, in order, over the once-advanced world. -/
theorem cleanup_scene_keeps_stepper_bodies (s : GameState) (w : World)
    (h : s.world = some w) :
    (GameScene.cleanup s).objects = [] ∧
    (GameScene.cleanup s).physicsObjects = s.physicsObjects ∧
    (GameScene.cleanup s).world = some w ∧
    (GameScene.cleanup s).meshes.length = s.meshes.length ∧
    PhysicsEngine.step (GameScene.cleanup s) =
      List.foldl updateObj
        { GameScene.cleanup s with world := some (World.step w) }
        s.physicsObjects := by
  have hw : (GameScene.cleanup s).world = some w :=
    (foldl_dispose_world s.objects s).trans h
  have hp : (GameScene.cleanup s).physicsObjects = s.physicsObjects :=
    foldl_dispose_physicsObjects s.objects s
  refine ⟨rfl, hp, hw, foldl_dispose_meshes_length s.objects s, ?_⟩
  unfold PhysicsEngine.step
  split
  · rename_i heq
    rw [heq] at hw
    exact Option.noConfusion hw
  · rename_i w1 heq
    rw [heq] at hw
    injection hw with hw1
    subst hw1
    simp only [hp]

/-- C10 witness: cleaning up the concrete one-box scene keeps the body
registered and the next step still runs its update. -/
theorem cleanup_scene_keeps_stepper_bodies_witness :
    boxState.world = some boxWorld ∧
    ((GameScene.cleanup boxState).objects = [] ∧
     (GameScene.cleanup boxState).physicsObjects = boxState.physicsObjects ∧
     (GameScene.cleanup boxState).world = some boxWorld ∧
     (GameScene.cleanup boxState).meshes.length = boxState.meshes.length ∧
     PhysicsEngine.step (GameScene.cleanup boxState) =
       List.foldl updateObj
         { GameScene.cleanup boxState with world := some (World.step boxWorld) }
         boxState.physicsObjects) :=
  ⟨rfl, cleanup_scene_keeps_stepper_bodies boxState boxWorld rfl⟩

theorem updateObj_meshes_eq (T : GameState) (po : PhysicsObj) (W : World)
    (rb : RigidBody) (hW : T.world = some W)
    (hb : W.bodies.get? po.body = some rb) :
    (updateObj T po).meshes = modifyAt (writeSink rb) po.mesh T.meshes := by
  unfold updateObj
  split
  · rename_i heq
    rw [hW] at heq
    exact Option.noConfusion heq
  · rename_i w1 heq
    rw [hW] at heq
    injection heq with heq1
    subst heq1
    split
    · rename_i heq2
      rw [hb] at heq2
      exact Option.noConfusion heq2
    · rename_i rb1 heq2
      rw [hb] at heq2
      injection heq2 with heq3
      subst heq3
      rfl

theorem foldl_updateObj_last_mesh (A : GameState) (l : List PhysicsObj)
    (po : PhysicsObj) (W : World) (rb : RigidBody) (hA : A.world = some W)
    (hb : W.bodies.get? po.body = some rb) (hm : po.mesh < A.meshes.length) :
    ((List.foldl updateObj A (l ++ [po])).meshes.get? po.mesh).map Mesh.position =
      some rb.translation := by
  rw [List.foldl_append]
  set T := List.foldl updateObj A l with hT
  have hTw : T.world = some W := by
    rw [hT, foldl_updateObj_world]
    exact hA
  have hTl : T.meshes.length = A.meshes.length := by
    rw [hT, foldl_updateObj_meshes_length]
  have hm2 : po.mesh < T.meshes.length := by
    rw [hTl]
    exact hm
  show ((updateObj T po).meshes.get? po.mesh).map Mesh.position = some rb.translation
  rw [updateObj_meshes_eq T po W rb hTw hb]
  rw [modifyAt_get_self]
  rw [List.get?_eq_get hm2]
  rfl

theorem step_writes_last_mesh (A : GameState) (W2 : World) (l : List PhysicsObj)
    (po : PhysicsObj) (rb : RigidBody) (hA : A.world = some W2)
    (hl : A.physicsObjects = l ++ [po])
    (hb : (World.step W2).bodies.get? po.body = some rb)
    (hm : po.mesh < A.meshes.length) :
    ((PhysicsEngine.step A).meshes.get? po.mesh).map Mesh.position =
      some rb.translation := by
  unfold PhysicsEngine.step
  split
  · rename_i heq
    rw [hA] at heq
    exact Option.noConfusion heq
  · rename_i w1 heq
    rw [hA] at heq
    injection heq with heq1
    subst heq1
    rw [hl]
    exact foldl_updateObj_last_mesh _ l po (World.step W2) rb rfl hb hm

/-- C8: for any dimensions and position, `createBox` followed by one `step()`
on an initialized Stepper leaves the transform sink (the mesh handed to
`createBox`) at the initial position displaced by exactly one tick of gravity
integration (dt times dt times gravity) when the body is Dynamic, and exactly
at the initial position when the body is Fixed. -/
theorem createBox_then_step_gravity_tick (s : GameState) (size pos : Vec3)
    (meshH : Nat) (isDyn : Bool) (w : World) (h1 : s.world = some w)
    (h2 : s.rapierLoaded = true) (h3 : meshH < s.meshes.length) :
    ((PhysicsEngine.step
        (PhysicsEngine.createBox s size pos meshH isDyn).1).meshes.get?
          meshH).map Mesh.position =
      some (if isDyn
        then Vec3.add pos (Vec3.smul dt (Vec3.smul dt w.gravity))
        else pos) := by
  obtain ⟨ms, sc, wo, rl, ini, pobjs, ob⟩ := s
  have h1a : wo = some w := h1
  have h2a : rl = true := h2
  subst h1a
  subst h2a
  have h3a : meshH < ms.length := h3
  refine (step_writes_last_mesh _
    ({ gravity := w.gravity,
       bodies := w.bodies ++
         [{ btype := if isDyn then BodyType.Dynamic else BodyType.Fixed,
            translation := pos, rotation := ⟨0, 0, 0, 1⟩, linvel := ⟨0, 0, 0⟩,
            forceAcc := ⟨0, 0, 0⟩, mass := size.x * size.y * size.z }],
       colliders := w.colliders ++
         [{ halfExtents := ⟨size.x / 2, size.y / 2, size.z / 2⟩,
            translation := ⟨0, 0, 0⟩, parent := some w.bodies.length }] } : World)
    pobjs
    { body := w.bodies.length, collider := w.colliders.length, mesh := meshH }
    (stepBody w.gravity
      { btype := if isDyn then BodyType.Dynamic else BodyType.Fixed,
        translation := pos, rotation := ⟨0, 0, 0, 1⟩, linvel := ⟨0, 0, 0⟩,
        forceAcc := ⟨0, 0, 0⟩, mass := size.x * size.y * size.z })
    ?_ ?_ ?_ ?_).trans ?_
  · rfl
  · rfl
  · show ((w.bodies ++
        ([{ btype := if isDyn then BodyType.Dynamic else BodyType.Fixed,
            translation := pos, rotation := ⟨0, 0, 0, 1⟩, linvel := ⟨0, 0, 0⟩,
            forceAcc := ⟨0, 0, 0⟩,
            mass := size.x * size.y * size.z }] : List RigidBody)).map
          (stepBody w.gravity)).get? w.bodies.length =
      some (stepBody w.gravity
        { btype := if isDyn then BodyType.Dynamic else BodyType.Fixed,
          translation := pos, rotation := ⟨0, 0, 0, 1⟩, linvel := ⟨0, 0, 0⟩,
          forceAcc := ⟨0, 0, 0⟩, mass := size.x * size.y * size.z })
    rw [List.map_append]
    have hgl := List.get?_concat_length (w.bodies.map (stepBody w.gravity))
      (stepBody w.gravity
        { btype := if isDyn then BodyType.Dynamic else BodyType.Fixed,
          translation := pos, rotation := ⟨0, 0, 0, 1⟩, linvel := ⟨0, 0, 0⟩,
          forceAcc := ⟨0, 0, 0⟩, mass := size.x * size.y * size.z })
    rw [List.length_map] at hgl
    exact hgl
  · exact h3a
  · cases isDyn with
    | false => rfl
    | true =>
      simp [stepBody, Vec3.add, Vec3.smul]

/-- C8 witness: the concrete dynamic unit box dropped at (0, 5, 0) on a state
whose store holds one mesh — after one step, the sink reads one gravity tick
below the start. -/
theorem createBox_then_step_gravity_tick_witness :
    boxState.world = some boxWorld ∧ boxState.rapierLoaded = true ∧
    0 < boxState.meshes.length ∧
    ((PhysicsEngine.step
        (PhysicsEngine.createBox boxState ⟨1, 1, 1⟩ ⟨2, 3, 4⟩ 0 true).1).meshes.get?
          0).map Mesh.position =
      some (if true
        then Vec3.add ⟨2, 3, 4⟩ (Vec3.smul dt (Vec3.smul dt boxWorld.gravity))
        else ⟨2, 3, 4⟩) :=
  ⟨rfl, rfl, Nat.zero_lt_succ 0,
   createBox_then_step_gravity_tick boxState ⟨1, 1, 1⟩ ⟨2, 3, 4⟩ 0 true boxWorld
     rfl rfl (Nat.zero_lt_succ 0)⟩
